import Mathlib

/-!
# Verification of the LMT01 temperature-sensor driver (lmt01.c / lmt01.h)

Shallow embedding of the driver's pulse-to-temperature conversion and of the
pulse-acquisition protocol. Machine floats (`float`/`double` in the C source)
are modelled exactly over `ℚ`; the external timer capability (five function
pointers of `lmt01_dev_t`) is modelled by an oracle giving the pulse count of
each successive sampling window, together with an explicit event trace of the
timer operations performed. An out-of-bounds array access or a read of an
uninitialized variable — both undefined behavior in C — is modelled by an
`Option` result being `none`.
-/

namespace LMT01

/-- API return codes, from `lmt_status_t` in lmt01.h. -/
inductive lmt_status_t
  | LMT_OK
  | LMT_E_NULL_PTR
  | LMT_E_DEV_NOT_FOUND
  | LMT_E_TIMEOUT
deriving DecidableEq, Repr

open lmt_status_t

/-- First value of the C enum `lmt_conv_t` (conversion by equation).
The enum is modelled by its underlying integer so that out-of-enum
values can be expressed. -/
def CONV_TYPE_EQU : ℕ := 0

/-- Second value of the C enum `lmt_conv_t` (conversion by lookup table). -/
def CONV_TYPE_LUT : ℕ := 1

/-- The calibration lookup table `lut[21][2]` of lmt01.c:
entry `i` is `(lut[i][0], lut[i][1])` = (temperature °C, pulse count). -/
def lut : List (ℤ × ℕ) :=
  [(-50, 26), (-40, 181), (-30, 338), (-20, 494), (-10, 651),
   (0, 808), (10, 966), (20, 1125), (30, 1284), (40, 1443),
   (50, 1602), (60, 1762), (70, 1923), (80, 2084), (90, 2245),
   (100, 2407), (110, 2569), (120, 2731), (130, 2893), (140, 3057),
   (150, 3218)]

/-- Read `lut[i][1]` (the pulse count of anchor `i`); `none` when the
index is past the end of the table (an out-of-bounds access in C). -/
def lutP (i : ℕ) : Option ℕ := (lut.get? i).map Prod.snd

/-- Read `lut[i][0]` (the temperature of anchor `i`); `none` when the
index is past the end of the table (an out-of-bounds access in C). -/
def lutT (i : ℕ) : Option ℤ := (lut.get? i).map Prod.fst

/-- The pulse count of anchor `i` as a total function (defined for `i < 21`). -/
def P (i : ℕ) : ℕ := (lutP i).getD 0

/-- The temperature of anchor `i` as a total function (defined for `i < 21`). -/
def T (i : ℕ) : ℤ := (lutT i).getD 0

/-- `map` from lmt01.c: map a value from one scale to another
(`double` arithmetic modelled over `ℚ`). -/
def map (val in_min in_max out_min out_max : ℚ) : ℚ :=
  (val - in_min) * (out_max - out_min) / (in_max - in_min) + out_min

/-- The linear scan `for (i = 0; i < LEN(lut); i++) if (pulses >= lut[i][1]
&& pulses <= lut[i+1][1]) break;` of `lmt_pulses_to_temperature`.
The first argument after `pulses` counts the remaining loop iterations
(the call site uses `21`, the loop bound `LEN(lut)`), the second is the
loop variable `i`; the result is the value of `i` after the loop, or
`none` if the condition read `lut[i+1][1]` out of bounds (reached only
when `pulses >= lut[20][1]`, because `&&` short-circuits). -/
def lut_scan (pulses : ℕ) : ℕ → ℕ → Option ℕ
  | 0, i => some i
  | fuel + 1, i =>
    if i < 21 then
      match lutP i with
      | none => none
      | some lo =>
        if lo ≤ pulses then
          match lutP (i + 1) with
          | none => none
          | some hi => if pulses ≤ hi then some i else lut_scan pulses fuel (i + 1)
        else lut_scan pulses fuel (i + 1)
    else some i

/-- Line 214 of lmt01.c, the interpolation after the scan:
`temp = map(pulses, lut[i][1], lut[i+1][1], lut[i][0], lut[i+1][0]);`,
with `none` for an out-of-bounds table read (`i = 20` after a break at the
last slot, or `i = 21` after falling through). -/
def lut_interp (pulses i : ℕ) : Option ℚ :=
  match lutP i, lutP (i + 1), lutT i, lutT (i + 1) with
  | some pi_, some pj, some ti, some tj =>
    some (map (pulses : ℚ) (pi_ : ℚ) (pj : ℚ) (ti : ℚ) (tj : ℚ))
  | _, _, _, _ => none

/-- `lmt_pulses_to_temperature` of lmt01.c. The conversion type is the
underlying integer of the C enum (`CONV_TYPE_EQU = 0`, `CONV_TYPE_LUT = 1`).
Returns `none` when the C function's execution is undefined (table read out
of bounds after the scan falls through or breaks at `i = 20`). -/
def lmt_pulses_to_temperature (pulses : ℕ) (type : ℕ) : Option ℚ :=
  if pulses = 0 then
    some (-1)
  else if type = CONV_TYPE_EQU then
    some (((pulses : ℚ) / 4096) * 256 - 50)
  else if type = CONV_TYPE_LUT then
    match lut_scan pulses 21 0 with
    | none => none
    | some i => lut_interp pulses i
  else
    some 0

/-- Round-to-nearest with ties to even, of a rational to an integer: the
rounding used by IEEE-754 binary arithmetic. -/
def rne (y : ℚ) : ℤ :=
  if y - ⌊y⌋ < 1 / 2 then ⌊y⌋
  else if 1 / 2 < y - ⌊y⌋ then ⌊y⌋ + 1
  else if ⌊y⌋ % 2 = 0 then ⌊y⌋ else ⌊y⌋ + 1

/-- Binary32 (C `float`) rounding of a rational in the normal range: scale
by the value's ulp `2^(exponent − 23)` and round the 24-bit significand to
nearest, ties to even. Subnormals and overflow lie outside the magnitudes
this driver produces and are not modelled. -/
def float32 (x : ℚ) : ℚ :=
  if x = 0 then 0
  else if 0 < x then
    rne (x / 2 ^ (Int.log 2 x - 23)) * 2 ^ (Int.log 2 x - 23)
  else
    -(rne (-x / 2 ^ (Int.log 2 (-x) - 23)) * 2 ^ (Int.log 2 (-x) - 23))

/-- The value the C function actually returns for the Equation method on a
nonzero pulse count. `lmt_pulses_to_temperature` computes
`((pulses / 4096.0) * 256.0) - 50.0` in `double` — exact in `double` for
every `uint32_t` pulse count (`pulses / 4096.0` is dyadic with at most 32
significant bits, and so is the result) and hence exactly the rational of
the Equation branch above — and then narrows it to `float` when storing it
in `temp`, the function's return type. -/
def lmt_equation_temp (pulses : ℕ) : ℚ :=
  float32 (((pulses : ℚ) / 4096) * 256 - 50)

/-- The device structure `lmt01_dev_t` of lmt01.h. Each function-pointer
field is modelled by its presence (`true` = non-NULL); the behaviour of the
timer operations themselves is modelled by the probe oracle of the
acquisition functions below. `timer` is the `void *timer` context pointer
(never checked by the driver). -/
structure lmt01_dev where
  timer : Bool
  start_timer : Bool
  stop_timer : Bool
  set_timer_cnt : Bool
  get_timer_cnt : Bool
  delay_ms : Bool
deriving DecidableEq, Repr

/-- `null_ptr_check` of lmt01.c: a missing device structure (`dev == NULL`,
here `none`) or any missing one of the five function pointers yields
`LMT_E_NULL_PTR`; otherwise `LMT_OK`. The `void *timer` context is not
checked, exactly as in the source. -/
def null_ptr_check (dev : Option lmt01_dev) : lmt_status_t :=
  match dev with
  | none => LMT_E_NULL_PTR
  | some d =>
    if d.start_timer = false ∨ d.stop_timer = false ∨ d.set_timer_cnt = false ∨
        d.get_timer_cnt = false ∨ d.delay_ms = false then
      LMT_E_NULL_PTR
    else
      LMT_OK

/-- One timer-capability operation performed by the driver, recorded as an
event: the five operations a `lmt01_dev_t` exposes. -/
inductive TimerEvent
  | start_timer
  | stop_timer
  | set_timer_cnt (v : ℕ)
  | get_timer_cnt (v : ℕ)
  | delay_ms (period : ℕ)
deriving DecidableEq, Repr

/-- The delay durations (sampling windows, in ms) occurring in a trace of
timer events, in order. -/
def delays : List TimerEvent → List ℕ
  | [] => []
  | TimerEvent.delay_ms p :: rest => p :: delays rest
  | _ :: rest => delays rest

/-- `count_pulses_ms` of lmt01.c: stop the timer, reset its count to 0,
start it, delay `period` ms, stop it, read the accumulated count.
The hardware is modelled by the oracle `env`: `env n` is the pulse count
accumulated during the `n`-th sampling window the driver opens (`n` is the
probe index threaded through each acquisition call). Returns the count and
the trace of the six capability operations performed. -/
def count_pulses_ms (env : ℕ → ℕ) (n : ℕ) (period : ℕ) : ℕ × List TimerEvent :=
  (env n,
   [TimerEvent.stop_timer, TimerEvent.set_timer_cnt 0, TimerEvent.start_timer,
    TimerEvent.delay_ms period, TimerEvent.stop_timer,
    TimerEvent.get_timer_cnt (env n)])

/-- `lmt_init` of lmt01.c: null-pointer check, then one 60 ms probe;
zero pulses means `LMT_E_DEV_NOT_FOUND`, otherwise `LMT_OK`. Also returns
the trace of capability operations performed. -/
def lmt_init (dev : Option lmt01_dev) (env : ℕ → ℕ) : lmt_status_t × List TimerEvent :=
  if null_ptr_check dev ≠ LMT_OK then
    (LMT_E_NULL_PTR, [])
  else
    let r := count_pulses_ms env 0 60
    if r.1 = 0 then (LMT_E_DEV_NOT_FOUND, r.2) else (LMT_OK, r.2)

/-- The drain loop `while(count_pulses_ms(dev, 10) != 0);` of
`lmt_get_pulse_count`: repeat 10 ms probes until one reports zero pulses.
The C loop has no bound; `fuel` bounds the modelled recursion and a
`none` result means the loop did not terminate within `fuel` iterations
(so `∀ fuel, none` models the unbounded spin-wait never returning).
On exit returns the next probe index and the trace of all probes made. -/
def drain_wait (env : ℕ → ℕ) : ℕ → ℕ → Option (ℕ × List TimerEvent)
  | 0, _ => none
  | fuel + 1, n =>
    let r := count_pulses_ms env n 10
    if r.1 ≠ 0 then
      match drain_wait env fuel (n + 1) with
      | none => none
      | some (m, evs) => some (m, r.2 ++ evs)
    else
      some (n + 1, r.2)

/-- The event trace produced by `j + 1` consecutive 10 ms drain probes
starting at probe index `n` (the trace `drain_wait` accumulates when it
exits after its `j + 1`-th probe). -/
def drainTrace (env : ℕ → ℕ) (n : ℕ) : ℕ → List TimerEvent
  | 0 => (count_pulses_ms env n 10).2
  | j + 1 => (count_pulses_ms env n 10).2 ++ drainTrace env (n + 1) j

/-- `lmt_get_pulse_count` of lmt01.c: null-pointer check, drain phase
(10 ms probes until one is silent), then a single 104 ms measurement
window; zero pulses there is `LMT_E_DEV_NOT_FOUND` (and the out-parameter
`*pulses` is left unwritten, modelled `none`), otherwise `LMT_OK` with the
count. The outer `Option` is `none` when the unbounded drain loop does not
return within `fuel` iterations. -/
def lmt_get_pulse_count (dev : Option lmt01_dev) (env : ℕ → ℕ) (fuel : ℕ) :
    Option ((lmt_status_t × Option ℕ) × List TimerEvent) :=
  if null_ptr_check dev ≠ LMT_OK then
    some ((LMT_E_NULL_PTR, none), [])
  else
    match drain_wait env fuel 0 with
    | none => none
    | some (n, evs) =>
      let r := count_pulses_ms env n 104
      if r.1 = 0 then
        some ((LMT_E_DEV_NOT_FOUND, none), evs ++ r.2)
      else
        some ((LMT_OK, some r.1), evs ++ r.2)

/-- `lmt_get_temperature` of lmt01.c: obtain a pulse count, return any
non-`LMT_OK` status unchanged (leaving the out-parameter `*temp`
unwritten, modelled `none`), otherwise convert and return `LMT_OK` with
the temperature. The outer `Option` is `none` when execution is undefined
(non-terminating drain, read of the uninitialized local `pulses`, or
undefined behaviour inside the conversion). -/
def lmt_get_temperature (dev : Option lmt01_dev) (env : ℕ → ℕ) (fuel : ℕ) (type : ℕ) :
    Option ((lmt_status_t × Option ℚ) × List TimerEvent) :=
  match lmt_get_pulse_count dev env fuel with
  | none => none
  | some ((rslt, w), evs) =>
    if rslt ≠ LMT_OK then
      some ((rslt, none), evs)
    else
      match w with
      | none => none
      | some pulses =>
        match lmt_pulses_to_temperature pulses type with
        | none => none
        | some t => some ((LMT_OK, some t), evs)

/-- A device structure with all five function pointers present. -/
def completeDev : lmt01_dev :=
  { timer := true, start_timer := true, stop_timer := true,
    set_timer_cnt := true, get_timer_cnt := true, delay_ms := true }

/-- All five required capability operations are present. -/
def devComplete (d : lmt01_dev) : Prop :=
  d.start_timer = true ∧ d.stop_timer = true ∧ d.set_timer_cnt = true ∧
    d.get_timer_cnt = true ∧ d.delay_ms = true

instance (d : lmt01_dev) : Decidable (devComplete d) := by
  unfold devComplete
  infer_instance

example : (lmt_init (some completeDev) (fun _ => 0)).1 = LMT_E_DEV_NOT_FOUND := by decide
example : (lmt_init (some completeDev) (fun _ => 5)).1 = LMT_OK := by decide
example : lmt_get_pulse_count (some completeDev) (fun _ => 7) 3 = none := by decide
example :
    (lmt_get_pulse_count (some completeDev)
      (fun n => if n = 0 then 0 else 1762) 1).map (fun r => r.1) =
    some (LMT_OK, some 1762) := by decide

example : lmt_pulses_to_temperature 3219 CONV_TYPE_LUT = none := by decide
example : lmt_pulses_to_temperature 10 CONV_TYPE_LUT = none := by decide

example : lmt_pulses_to_temperature 784 CONV_TYPE_EQU = some (-1) := by
  norm_num [lmt_pulses_to_temperature, CONV_TYPE_EQU]

/-! ## Facts about the calibration table -/

theorem lutP_lt : ∀ i, i < 21 → lutP i = some (P i) := by decide

theorem lutT_lt : ∀ i, i < 21 → lutT i = some (T i) := by decide

theorem P_pos : ∀ i, i < 21 → 0 < P i := by decide

theorem P_adj_lt : ∀ i, i < 20 → P i < P (i + 1) := by decide

theorem P_mono_le : ∀ b, b < 21 → ∀ a, a < b + 1 → P a ≤ P b := by decide

theorem T_adj_le : ∀ i, i < 20 → T i ≤ T (i + 1) := by decide

/-! ## The linear scan -/

/-- If `pulses` is bracketed by anchors `k` and `k + 1`, the loop breaks
at `i = k`. -/
theorem scan_hit (p f k : ℕ) (hk : k + 1 < 21) (h1 : P k ≤ p) (h2 : p ≤ P (k + 1)) :
    lut_scan p (f + 1) k = some k := by
  simp only [lut_scan, lutP_lt k (by omega), lutP_lt (k + 1) hk]
  rw [if_pos (show k < 21 by omega), if_pos h1, if_pos h2]

/-- If `pulses` lies strictly above anchor `k + 1`, iteration `k` of the
loop neither breaks nor goes out of bounds and the scan moves on. -/
theorem scan_skip (p f k : ℕ) (hk : k + 1 < 21) (h : P (k + 1) < p) :
    lut_scan p (f + 1) k = lut_scan p f (k + 1) := by
  simp only [lut_scan, lutP_lt k (by omega), lutP_lt (k + 1) hk]
  rw [if_pos (show k < 21 by omega)]
  by_cases hle : P k ≤ p
  · rw [if_pos hle, if_neg (show ¬p ≤ P (k + 1) by omega)]
  · rw [if_neg hle]

theorem scan_finds_aux (p i : ℕ) (hi : i + 1 < 21) (h1 : P i < p) (h2 : p ≤ P (i + 1)) :
    ∀ d k, k ≤ i → i - k = d → lut_scan p (21 - k) k = some i := by
  intro d
  induction d with
  | zero =>
    intro k hk hd
    have hki : k = i := by omega
    subst hki
    rw [show 21 - k = (20 - k) + 1 by omega]
    exact scan_hit p (20 - k) k hi (le_of_lt h1) h2
  | succ n ih =>
    intro k hk hd
    have hki : k < i := by omega
    have hlt : P (k + 1) < p :=
      lt_of_le_of_lt (P_mono_le i (by omega) (k + 1) (by omega)) h1
    rw [show 21 - k = (21 - (k + 1)) + 1 by omega,
      scan_skip p (21 - (k + 1)) k (by omega) hlt]
    exact ih (k + 1) (by omega) (by omega)

/-- For `pulses` strictly inside the table's range, the scan started at
`i = 0` (with the loop bound `21`) breaks at the bracketing pair. -/
theorem scan_finds (p i : ℕ) (hi : i + 1 < 21) (h1 : P i < p) (h2 : p ≤ P (i + 1)) :
    lut_scan p 21 0 = some i := by
  simpa using scan_finds_aux p i hi h1 h2 i 0 (Nat.zero_le i) rfl

/-! ## The interpolation -/

theorem map_left (a b c d : ℚ) : map a a b c d = c := by
  simp [map]

theorem map_right (a b c d : ℚ) (h : a ≠ b) : map b a b c d = d := by
  have hba : b - a ≠ 0 := sub_ne_zero.mpr (Ne.symm h)
  rw [map]
  field_simp

theorem lut_interp_lt (p i : ℕ) (hi : i + 1 < 21) :
    lut_interp p i =
      some (map (p : ℚ) (P i : ℚ) (P (i + 1) : ℚ) (T i : ℚ) (T (i + 1) : ℚ)) := by
  unfold lut_interp
  rw [lutP_lt i (by omega), lutP_lt (i + 1) hi, lutT_lt i (by omega), lutT_lt (i + 1) hi]

/-- For `pulses` strictly inside a bracket, the conversion interpolates
that bracket. -/
theorem conv_lut_eq (i p : ℕ) (hi : i + 1 < 21) (h1 : P i < p) (h2 : p ≤ P (i + 1)) :
    lmt_pulses_to_temperature p CONV_TYPE_LUT =
      some (map (p : ℚ) (P i : ℚ) (P (i + 1) : ℚ) (T i : ℚ) (T (i + 1) : ℚ)) := by
  have hp0 : p ≠ 0 := by
    have := P_pos i (by omega)
    omega
  unfold lmt_pulses_to_temperature
  rw [if_neg hp0, if_neg (show ¬CONV_TYPE_LUT = CONV_TYPE_EQU by decide), if_pos rfl,
    scan_finds p i hi h1 h2]
  exact lut_interp_lt p i hi

/-- The conversion is exact at every calibration anchor. -/
theorem conv_anchor (i : ℕ) (hi : i < 21) :
    lmt_pulses_to_temperature (P i) CONV_TYPE_LUT = some ((T i : ℚ)) := by
  rcases Nat.eq_zero_or_pos i with h0 | h0
  · subst h0
    have hscan : lut_scan (P 0) 21 0 = some 0 := by decide
    unfold lmt_pulses_to_temperature
    rw [if_neg (show ¬P 0 = 0 by decide),
      if_neg (show ¬CONV_TYPE_LUT = CONV_TYPE_EQU by decide), if_pos rfl, hscan]
    show lut_interp (P 0) 0 = some ((T 0 : ℚ))
    rw [lut_interp_lt (P 0) 0 (by omega), map_left]
  · obtain ⟨j, rfl⟩ : ∃ j, i = j + 1 := ⟨i - 1, by omega⟩
    rw [conv_lut_eq j (P (j + 1)) (by omega) (P_adj_lt j (by omega)) (le_refl _)]
    rw [map_right _ _ _ _ (by exact_mod_cast Nat.ne_of_lt (P_adj_lt j (by omega)))]

/-- On the closed bracket `[P i, P (i + 1)]` the conversion agrees with the
interpolation of that bracket (at the left anchor the scan picks the
previous bracket, whose value there coincides). -/
theorem conv_on_interval (i p : ℕ) (hi : i + 1 < 21) (h1 : P i ≤ p) (h2 : p ≤ P (i + 1)) :
    lmt_pulses_to_temperature p CONV_TYPE_LUT =
      some (map (p : ℚ) (P i : ℚ) (P (i + 1) : ℚ) (T i : ℚ) (T (i + 1) : ℚ)) := by
  rcases lt_or_eq_of_le h1 with h | h
  · exact conv_lut_eq i p hi h h2
  · rw [← h, conv_anchor i (by omega), map_left]

/-! ## The claims about the conversion -/

/-- C1: for a nonzero pulse count below 26 or above 3218, the lookup-table
conversion does not return `OutOfRange`: it reads one slot past the last
calibration anchor (undefined behaviour, modelled `none`), so it can
return a value derived from memory past the table instead of an explicit
error. Evaluated at the failing inputs 25 and 3219. -/
theorem lut_out_of_range_reads_past_table :
    lmt_pulses_to_temperature 25 CONV_TYPE_LUT = none ∧
      lmt_pulses_to_temperature 3219 CONV_TYPE_LUT = none := by
  decide

/-- C2: the zero-pulse rejection returns the float `-1`, which is not
distinct from every valid temperature reading: the `Equation` method
legitimately returns exactly `-1` °C at 784 pulses. -/
theorem zero_pulse_sentinel_collision :
    lmt_pulses_to_temperature 0 CONV_TYPE_EQU = some (-1) ∧
      lmt_pulses_to_temperature 0 CONV_TYPE_LUT = some (-1) ∧
      lmt_pulses_to_temperature 784 CONV_TYPE_EQU = some (-1) := by
  refine ⟨rfl, rfl, ?_⟩
  norm_num [lmt_pulses_to_temperature, CONV_TYPE_EQU]

/-- The Equation branch applies `(p / 4096) * 256 - 50` (computed exactly
in `double`) to every nonzero pulse count, with no bounds check; this is
the value before the `float` return-narrowing modelled by `float32`. -/
theorem equation_conversion_exact (p : ℕ) (hp : p ≠ 0) :
    lmt_pulses_to_temperature p CONV_TYPE_EQU = some (((p : ℚ) / 4096) * 256 - 50) := by
  unfold lmt_pulses_to_temperature
  rw [if_neg hp, if_pos rfl]

/-! ## Binary32 rounding -/

theorem int_log2_eq (a : ℚ) (e : ℤ) (h1 : (2 : ℚ) ^ e ≤ a) (h2 : a < (2 : ℚ) ^ (e + 1)) :
    Int.log 2 a = e := by
  have ha : 0 < a := lt_of_lt_of_le (by positivity) h1
  have hle : e ≤ Int.log 2 a := by
    refine (Int.zpow_le_iff_le_log (by norm_num) ha).mp ?_
    exact_mod_cast h1
  have hlt : Int.log 2 a < e + 1 := by
    refine (Int.lt_zpow_iff_log_lt (by norm_num) ha).mp ?_
    exact_mod_cast h2
  omega

theorem int_log2_lt (a : ℚ) (x : ℤ) (ha : 0 < a) (h : a < (2 : ℚ) ^ x) :
    Int.log 2 a < x := by
  refine (Int.lt_zpow_iff_log_lt (by norm_num) ha).mp ?_
  exact_mod_cast h

/-- Binary32 rounding is odd: a negative value rounds to the negated
rounding of its absolute value. -/
theorem float32_neg (x : ℚ) (hx : x < 0) : float32 x = -float32 (-x) := by
  unfold float32
  rw [if_neg (ne_of_lt hx), if_neg (not_lt.mpr (le_of_lt hx)),
    if_neg (show ¬(-x = 0) by intro h; apply ne_of_lt hx; linarith),
    if_pos (show 0 < -x by linarith)]

/-- A positive multiple of `1/16` below 256 is exactly representable in
binary32: rounding returns it unchanged. -/
theorem float32_pos_dyadic (n : ℤ) (hn : 0 < n) (hb : n < 4096) :
    float32 ((n : ℚ) / 16) = (n : ℚ) / 16 := by
  have h2 : (2 : ℚ) ≠ 0 := by norm_num
  have hnq : (0 : ℚ) < (n : ℚ) := by exact_mod_cast hn
  have ha : (0 : ℚ) < (n : ℚ) / 16 := by positivity
  set e : ℤ := Int.log 2 ((n : ℚ) / 16) with hedef
  have he7 : e ≤ 7 := by
    have hlt : (n : ℚ) / 16 < (2 : ℚ) ^ (8 : ℤ) := by
      have hn4 : (n : ℚ) < 4096 := by exact_mod_cast hb
      have h28 : (2 : ℚ) ^ (8 : ℤ) = 256 := by norm_num
      rw [h28]
      linarith
    have := int_log2_lt ((n : ℚ) / 16) 8 ha hlt
    omega
  have hscale : (n : ℚ) / 16 =
      ((n * 2 ^ (19 - e).toNat : ℤ) : ℚ) * 2 ^ (e - 23) := by
    push_cast
    rw [mul_assoc, ← zpow_natCast (2 : ℚ) (19 - e).toNat, ← zpow_add₀ h2,
      show (((19 - e).toNat : ℤ) + (e - 23)) = (-4 : ℤ) by omega]
    norm_num
    ring
  have hy : (n : ℚ) / 16 / (2 : ℚ) ^ (e - 23) = ((n * 2 ^ (19 - e).toNat : ℤ) : ℚ) := by
    rw [div_eq_iff (zpow_ne_zero _ h2)]
    exact hscale
  have hrne : rne ((n : ℚ) / 16 / (2 : ℚ) ^ (e - 23)) = n * 2 ^ (19 - e).toNat := by
    unfold rne
    rw [hy, Int.floor_intCast, if_pos (by norm_num)]
  unfold float32
  rw [if_neg (ne_of_gt ha), if_pos ha, ← hedef, hrne, ← hscale]

/-- Every multiple of `1/16` of magnitude below 256 is exactly
representable in binary32. -/
theorem float32_dyadic16 (k : ℤ) (hb : |k| < 4096) :
    float32 ((k : ℚ) / 16) = (k : ℚ) / 16 := by
  rw [abs_lt] at hb
  rcases lt_trichotomy k 0 with hk | hk | hk
  · have hkq : (k : ℚ) < 0 := by exact_mod_cast hk
    have hxneg : (k : ℚ) / 16 < 0 := by
      apply div_neg_of_neg_of_pos hkq
      norm_num
    rw [float32_neg _ hxneg, show -((k : ℚ) / 16) = ((-k : ℤ) : ℚ) / 16 by push_cast; ring,
      float32_pos_dyadic (-k) (by omega) (by omega)]
    push_cast
    ring
  · subst hk
    norm_num [float32]
  · exact float32_pos_dyadic k hk (by omega)

/-- C3 counterexample: at 16778017 pulses the Equation value is exactly
`16777217/16 = 1048576.0625`, which is not representable in binary32; the
`float` return narrows it (ties to even) to `1048576`, so
"`convert(p, Equation)` equals the formula exactly for every nonzero `p`"
fails on the program. -/
theorem equation_float_counterexample :
    lmt_equation_temp 16778017 = 1048576 ∧
      ((16778017 : ℚ) / 4096) * 256 - 50 = 16777217 / 16 ∧
      lmt_equation_temp 16778017 ≠ ((16778017 : ℚ) / 4096) * 256 - 50 := by
  have hx : ((16778017 : ℚ) / 4096) * 256 - 50 = 16777217 / 16 := by norm_num
  have hpos : (0 : ℚ) < (16777217 : ℚ) / 16 := by norm_num
  have hlog : Int.log 2 ((16777217 : ℚ) / 16) = 20 := by
    apply int_log2_eq
    · norm_num
    · norm_num
  have hval : lmt_equation_temp 16778017 = 1048576 := by
    unfold lmt_equation_temp
    push_cast
    rw [hx]
    unfold float32
    rw [if_neg (ne_of_gt hpos), if_pos hpos, hlog,
      show (20 : ℤ) - 23 = -3 by ring,
      show (16777217 : ℚ) / 16 / (2 : ℚ) ^ (-3 : ℤ) = 16777217 / 2 by norm_num]
    unfold rne
    rw [show ⌊(16777217 : ℚ) / 2⌋ = 8388608 by rw [Int.floor_eq_iff]; constructor <;> norm_num]
    rw [if_neg (by norm_num), if_neg (by norm_num), if_pos (by decide)]
    norm_num
  refine ⟨hval, hx, ?_⟩
  rw [hval, hx]
  norm_num

/-- C3 (amended): for every nonzero pulse count up to 4095 (the sensor's
12-bit range, where the `float` narrowing is lossless) the returned
Equation temperature is exactly `(p / 4096) * 256 - 50`; and for every
nonzero pulse count, with no bounds check, the branch computes exactly
that formula in `double` before the `float` return-narrowing — out-of-spec
pulse counts extrapolate by the same formula but may be rounded by the
narrowing (first failures near 2^24 pulses). -/
theorem equation_conversion_exact_in_range :
    (∀ p : ℕ, p ≠ 0 → p ≤ 4095 →
      lmt_equation_temp p = ((p : ℚ) / 4096) * 256 - 50) ∧
    (∀ p : ℕ, p ≠ 0 → lmt_pulses_to_temperature p CONV_TYPE_EQU =
      some (((p : ℚ) / 4096) * 256 - 50)) := by
  constructor
  · intro p hp hle
    have hx : ((p : ℚ) / 4096) * 256 - 50 = (((p : ℤ) - 800 : ℤ) : ℚ) / 16 := by
      push_cast
      ring
    have hpz : ((p : ℤ) : ℤ) ≤ 4095 := by exact_mod_cast hle
    unfold lmt_equation_temp
    rw [hx, float32_dyadic16 ((p : ℤ) - 800) (by rw [abs_lt]; omega)]
  · intro p hp
    exact equation_conversion_exact p hp

/-- Witness for the amended C3: exactness at the in-range pulse count 1762
and the unnarrowed formula at the out-of-spec pulse count 5000. -/
theorem equation_conversion_exact_in_range_witness :
    lmt_equation_temp 1762 = ((1762 : ℚ) / 4096) * 256 - 50 ∧
      lmt_pulses_to_temperature 5000 CONV_TYPE_EQU =
        some (((5000 : ℚ) / 4096) * 256 - 50) :=
  ⟨equation_conversion_exact_in_range.1 1762 (by decide) (by decide),
    equation_conversion_exact_in_range.2 5000 (by decide)⟩

/-- C4: the lookup-table conversion is exact at every calibration anchor:
`convert(lut[i][1], LUT) = lut[i][0]` for each of the 21 anchors. -/
theorem lut_anchor_exact (i : ℕ) (hi : i < 21) :
    lmt_pulses_to_temperature (P i) CONV_TYPE_LUT = some ((T i : ℚ)) :=
  conv_anchor i hi

/-- Witness for C4 at anchor 11: 1762 pulses convert to exactly 60 °C. -/
theorem lut_anchor_exact_witness :
    lmt_pulses_to_temperature 1762 CONV_TYPE_LUT = some 60 := by
  have h := lut_anchor_exact 11 (by decide)
  rw [show P 11 = 1762 from by decide, show T 11 = 60 from by decide] at h
  rw [h]
  norm_num

/-- C5: the lookup-table conversion is monotonic on every bracket: for an
adjacent anchor pair `(i, i + 1)` and pulse counts `p1 ≤ p2` both within
`[lut[i][1], lut[i+1][1]]`, the converted temperatures are defined and
nondecreasing. -/
theorem lut_monotone_on_bracket (i p1 p2 : ℕ) (hi : i + 1 < 21) (hl : P i ≤ p1)
    (h12 : p1 ≤ p2) (hr : p2 ≤ P (i + 1)) :
    ∃ t1 t2 : ℚ, lmt_pulses_to_temperature p1 CONV_TYPE_LUT = some t1 ∧
      lmt_pulses_to_temperature p2 CONV_TYPE_LUT = some t2 ∧ t1 ≤ t2 := by
  refine ⟨_, _, conv_on_interval i p1 hi hl (le_trans h12 hr),
    conv_on_interval i p2 hi (le_trans hl h12) hr, ?_⟩
  unfold map
  have hT : (0 : ℚ) ≤ (T (i + 1) : ℚ) - (T i : ℚ) := by
    have h := T_adj_le i (by omega)
    have h' : (T i : ℚ) ≤ (T (i + 1) : ℚ) := by exact_mod_cast h
    linarith
  have hP : (0 : ℚ) < (P (i + 1) : ℚ) - (P i : ℚ) := by
    have h := P_adj_lt i (by omega)
    have h' : (P i : ℚ) < (P (i + 1) : ℚ) := by exact_mod_cast h
    linarith
  have hp : (p1 : ℚ) ≤ (p2 : ℚ) := by exact_mod_cast h12
  apply add_le_add_right
  exact (div_le_div_iff_of_pos_right hP).mpr
    (mul_le_mul_of_nonneg_right (sub_le_sub_right hp _) hT)

/-- Witness for C5 on bracket 0 with 26 ≤ 100: −50 °C ≤ the value at 100
pulses. -/
theorem lut_monotone_on_bracket_witness :
    ∃ t1 t2 : ℚ, lmt_pulses_to_temperature 26 CONV_TYPE_LUT = some t1 ∧
      lmt_pulses_to_temperature 100 CONV_TYPE_LUT = some t2 ∧ t1 ≤ t2 := by
  have h := lut_monotone_on_bracket 0 26 100 (by decide) (by decide) (by decide) (by decide)
  simpa using h

/-- C10: for every nonzero pulse count and a conversion type that is
neither `CONV_TYPE_EQU` nor `CONV_TYPE_LUT`, the conversion returns `0.0`
rather than an error — and `0.0` is also a legitimate reading (the
`Equation` result at 800 pulses). -/
theorem invalid_conv_type_returns_zero :
    (∀ p t : ℕ, p ≠ 0 → t ≠ CONV_TYPE_EQU → t ≠ CONV_TYPE_LUT →
      lmt_pulses_to_temperature p t = some 0) ∧
      lmt_pulses_to_temperature 800 CONV_TYPE_EQU = some 0 := by
  constructor
  · intro p t hp ht1 ht2
    unfold lmt_pulses_to_temperature
    rw [if_neg hp, if_neg ht1, if_neg ht2]
  · norm_num [lmt_pulses_to_temperature, CONV_TYPE_EQU]

/-- Witness for C10 at pulse count 1762 and out-of-enum type 2. -/
theorem invalid_conv_type_returns_zero_witness :
    lmt_pulses_to_temperature 1762 2 = some 0 :=
  invalid_conv_type_returns_zero.1 1762 2 (by decide) (by decide) (by decide)

/-! ## The acquisition protocol -/

theorem null_ptr_check_complete (d : lmt01_dev) (h : devComplete d) :
    null_ptr_check (some d) = LMT_OK := by
  obtain ⟨h1, h2, h3, h4, h5⟩ := h
  simp [null_ptr_check, h1, h2, h3, h4, h5]

theorem delays_append (xs ys : List TimerEvent) :
    delays (xs ++ ys) = delays xs ++ delays ys := by
  induction xs with
  | nil => rfl
  | cons x rest ih => cases x <;> simp [delays, ih]

/-- If no 10 ms probe ever reports zero pulses, the drain loop never
terminates, whatever iteration bound is allowed. -/
theorem drain_wait_none (env : ℕ → ℕ) (h : ∀ n, env n ≠ 0) :
    ∀ fuel n, drain_wait env fuel n = none := by
  intro fuel
  induction fuel with
  | zero => intro n; rfl
  | succ f ih =>
    intro n
    simp only [drain_wait, count_pulses_ms]
    rw [if_pos (h n), ih (n + 1)]

/-- If the first zero probe is the `j`-th one (counting from the starting
index `n`), the drain loop exits after exactly `j + 1` probes. -/
theorem drain_wait_eq (env : ℕ → ℕ) :
    ∀ j fuel n, (∀ k, k < j → env (n + k) ≠ 0) → env (n + j) = 0 → j < fuel →
      drain_wait env fuel n = some (n + j + 1, drainTrace env n j) := by
  intro j
  induction j with
  | zero =>
    intro fuel n hk h0 hf
    obtain ⟨f, rfl⟩ : ∃ f, fuel = f + 1 := ⟨fuel - 1, by omega⟩
    have h0' : env n = 0 := by simpa using h0
    simp only [drain_wait, count_pulses_ms, drainTrace]
    rw [if_neg (fun hc => hc h0')]
  | succ m ih =>
    intro fuel n hk h0 hf
    obtain ⟨f, rfl⟩ : ∃ f, fuel = f + 1 := ⟨fuel - 1, by omega⟩
    have hn : env n ≠ 0 := by simpa using hk 0 (by omega)
    simp only [drain_wait, count_pulses_ms, drainTrace]
    rw [if_pos hn,
      ih f (n + 1) (fun k hkm => by
        have := hk (k + 1) (by omega)
        simpa [show n + (k + 1) = n + 1 + k by omega] using this)
        (by simpa [show n + (m + 1) = n + 1 + m by omega] using h0) (by omega),
      show n + 1 + m + 1 = n + (m + 1) + 1 by omega]

theorem delays_drainTrace (env : ℕ → ℕ) :
    ∀ j n, delays (drainTrace env n j) = List.replicate (j + 1) 10 := by
  intro j
  induction j with
  | zero => intro n; rfl
  | succ m ih =>
    intro n
    simp only [drainTrace, count_pulses_ms, delays_append, ih (n + 1)]
    simp [delays, List.replicate_succ]

/-! ## The claims about the driver entry points -/

/-- C6: `lmt_init` fails with `LMT_E_NULL_PTR` (the spec's
`MissingCapability`) whenever the device structure itself is absent or any
one of the five timer capability operations is absent from it. -/
theorem init_missing_capability (dev : Option lmt01_dev) (env : ℕ → ℕ)
    (h : dev = none ∨ ∃ d, dev = some d ∧
      (d.start_timer = false ∨ d.stop_timer = false ∨ d.set_timer_cnt = false ∨
        d.get_timer_cnt = false ∨ d.delay_ms = false)) :
    (lmt_init dev env).1 = LMT_E_NULL_PTR := by
  have hnp : null_ptr_check dev = LMT_E_NULL_PTR := by
    rcases h with h | ⟨d, rfl, hd⟩
    · subst h; rfl
    · simp only [null_ptr_check]
      rw [if_pos hd]
  unfold lmt_init
  rw [if_pos (by rw [hnp]; decide)]

/-- Witness for C6: a device missing only its `start_timer` operation. -/
theorem init_missing_capability_witness :
    (lmt_init (some ⟨true, false, true, true, true, true⟩) (fun _ => 1)).1 =
      LMT_E_NULL_PTR :=
  init_missing_capability _ (fun _ => 1)
    (Or.inr ⟨_, rfl, Or.inl rfl⟩)

/-- C7: with a complete capability, `lmt_init` opens exactly one sampling
window, of 60 ms; a zero count there fails with `LMT_E_DEV_NOT_FOUND`
(the spec's `DeviceNotFound`) and a nonzero count returns `LMT_OK` (the
spec's `Ready`). The engine is a pure function of the device and the
probe oracle — it retains no state. -/
theorem init_probe_60ms (d : lmt01_dev) (env : ℕ → ℕ) (h : devComplete d) :
    delays (lmt_init (some d) env).2 = [60] ∧
      (env 0 = 0 → (lmt_init (some d) env).1 = LMT_E_DEV_NOT_FOUND) ∧
      (env 0 ≠ 0 → (lmt_init (some d) env).1 = LMT_OK) := by
  have hnp := null_ptr_check_complete d h
  unfold lmt_init
  rw [if_neg (by rw [hnp]; decide)]
  by_cases h0 : env 0 = 0
  · simp [count_pulses_ms, delays, h0]
  · simp [count_pulses_ms, delays, h0]

/-- Witness for C7: an always-silent sensor makes `lmt_init` fail with
`LMT_E_DEV_NOT_FOUND` after its single 60 ms window. -/
theorem init_probe_60ms_witness :
    delays (lmt_init (some completeDev) (fun _ => 0)).2 = [60] ∧
      (lmt_init (some completeDev) (fun _ => 0)).1 = LMT_E_DEV_NOT_FOUND := by
  have h := init_probe_60ms completeDev (fun _ => 0) (by decide)
  exact ⟨h.1, h.2.1 rfl⟩

/-- C8: `lmt_get_temperature` first calls `lmt_get_pulse_count`; any
non-`LMT_OK` status from it is returned unchanged, the out-parameter
`*temp` is left unwritten (`none`), and the capability trace is exactly
the acquisition's own trace — no retry is performed. -/
theorem get_temperature_error_propagation (dev : Option lmt01_dev) (env : ℕ → ℕ)
    (fuel type : ℕ) (r : lmt_status_t × Option ℕ) (evs : List TimerEvent)
    (hres : lmt_get_pulse_count dev env fuel = some (r, evs))
    (herr : r.1 ≠ LMT_OK) :
    lmt_get_temperature dev env fuel type = some ((r.1, none), evs) := by
  obtain ⟨s, w⟩ := r
  unfold lmt_get_temperature
  rw [hres]
  show (if s ≠ LMT_OK then some ((s, none), evs) else _) = _
  rw [if_pos herr]

/-- Witness for C8: an always-silent sensor fails acquisition with
`LMT_E_DEV_NOT_FOUND`, which `lmt_get_temperature` returns unchanged with
no temperature written and the acquisition's trace (one 10 ms drain probe,
one 104 ms measurement window). -/
theorem get_temperature_error_propagation_witness :
    lmt_get_temperature (some completeDev) (fun _ => 0) 1 CONV_TYPE_LUT =
      some ((LMT_E_DEV_NOT_FOUND, none),
        [TimerEvent.stop_timer, TimerEvent.set_timer_cnt 0, TimerEvent.start_timer,
         TimerEvent.delay_ms 10, TimerEvent.stop_timer, TimerEvent.get_timer_cnt 0,
         TimerEvent.stop_timer, TimerEvent.set_timer_cnt 0, TimerEvent.start_timer,
         TimerEvent.delay_ms 104, TimerEvent.stop_timer, TimerEvent.get_timer_cnt 0]) :=
  get_temperature_error_propagation (some completeDev) (fun _ => 0) 1 CONV_TYPE_LUT
    (LMT_E_DEV_NOT_FOUND, none) _ (by decide) (by decide)

/-- C9: (1) if every 10 ms drain probe reports a nonzero count, the drain
phase of `lmt_get_pulse_count` is an unbounded spin-wait: no iteration
bound makes it return. (2) Once the first zero drain probe occurs (probe
`j`), exactly one 104 ms measurement window follows — the delay trace is
`j + 1` probes of 10 ms then a single 104 — failing with
`LMT_E_DEV_NOT_FOUND` if it counts zero pulses and returning the count
otherwise. -/
theorem drain_spin_and_single_measure :
    (∀ (d : lmt01_dev) (env : ℕ → ℕ) (fuel : ℕ), devComplete d → (∀ n, env n ≠ 0) →
      lmt_get_pulse_count (some d) env fuel = none) ∧
    (∀ (d : lmt01_dev) (env : ℕ → ℕ) (j fuel : ℕ), devComplete d →
      (∀ k, k < j → env k ≠ 0) → env j = 0 → j < fuel →
      ∃ evs, lmt_get_pulse_count (some d) env fuel =
          some ((if env (j + 1) = 0 then LMT_E_DEV_NOT_FOUND else LMT_OK,
            if env (j + 1) = 0 then none else some (env (j + 1))), evs) ∧
        delays evs = List.replicate (j + 1) 10 ++ [104]) := by
  constructor
  · intro d env fuel hd hnz
    have hnp := null_ptr_check_complete d hd
    unfold lmt_get_pulse_count
    rw [if_neg (by rw [hnp]; decide), drain_wait_none env hnz fuel 0]
  · intro d env j fuel hd hk h0 hf
    have hnp := null_ptr_check_complete d hd
    have hdw := drain_wait_eq env j fuel 0 (fun k hkj => by simpa using hk k hkj)
      (by simpa using h0) hf
    rw [show (0 : ℕ) + j + 1 = j + 1 by omega] at hdw
    refine ⟨drainTrace env 0 j ++ (count_pulses_ms env (j + 1) 104).2, ?_, ?_⟩
    · unfold lmt_get_pulse_count
      rw [if_neg (by rw [hnp]; decide), hdw]
      by_cases hz : env (j + 1) = 0
      · simp [count_pulses_ms, hz]
      · simp [count_pulses_ms, hz]
    · rw [delays_append, delays_drainTrace env j 0]
      simp [count_pulses_ms, delays]

/-- Witness for C9: part (1) at a sensor that always reports one pulse
(no bound up to 5 makes the drain return — applied at bound 5), part (2)
at a sensor silent on the first probe and reporting 1762 pulses on the
measurement window. -/
theorem drain_spin_and_single_measure_witness :
    lmt_get_pulse_count (some completeDev) (fun _ => 1) 5 = none ∧
      ∃ evs, lmt_get_pulse_count (some completeDev)
          (fun n => if n = 0 then 0 else 1762) 1 =
          some ((LMT_OK, some 1762), evs) ∧ delays evs = [10, 104] := by
  constructor
  · exact drain_spin_and_single_measure.1 completeDev (fun _ => 1) 5 (by decide)
      (fun n => Nat.one_ne_zero)
  · have h := drain_spin_and_single_measure.2 completeDev
      (fun n => if n = 0 then 0 else 1762) 0 1 (by decide)
      (fun k hk => absurd hk (by omega)) (by decide) (by decide)
    simpa using h

end LMT01
